import Mathlib

/-!
Shallow embedding of the session / API-access manager of this repository.

The core under scrutiny is the `AuthProvider` of `src/unnamed/part_002`
(state hooks `user`, `token`, `loading`, `error`; operations `loadStoredAuth`,
`login`, `register`, `logout`; navigation resets via `navigateReset`), the
axios interceptors of `src/unnamed/part_005` (request-header attachment and
error normalisation), and the two `isEmailValid` variants of
`src/frontend/utils/validators.ts`.

Modelling conventions:
- React `useState` setters are modelled as functional record updates on an
  explicit `AuthState`; the synchronous code between two `await` points runs
  atomically (single-threaded JS event loop), so each operation is split into
  the atomic segments delimited by its `await`s where interleaving matters.
- `AsyncStorage` is the `storage : StoredState` component; a storage call that
  can reject takes an `Option String` parameter (`none` = success,
  `some m` = rejects with an error whose `.message` is `m`).
- The JSON round-trip `JSON.stringify` / `JSON.parse` applied to the cached
  user object is modelled as the identity, so the stored user slot holds an
  `Option User` directly.
- A thrown JS exception crossing a function boundary is the `Except String`
  component of the result (`.error m` = the function threw an error whose
  message is `m`).
-/

namespace RNApp

/-- The user profile kept in memory and (serialised) in storage
(`type User` in `src/unnamed/part_002`). -/
structure User where
  id : String
  name : String
  email : String
deriving DecidableEq

/-- Raw parsed JSON body of a network response. Each field is `none` when the
field is absent from the JSON object or is not a string, which is exactly the
condition `typeof data.x !== 'string'` tested by the response handlers. -/
structure RawBody where
  id : Option String
  name : Option String
  email : Option String
  token : Option String
  message : Option String
deriving DecidableEq

/-- The values held by AsyncStorage under the keys used by the provider
(`@auth_token` and `@auth_user` in `src/unnamed/part_002`). -/
structure StoredState where
  authToken : Option String
  authUser : Option User
deriving DecidableEq

/-- Routes of the `RootStackParamList` in `src/unnamed/part_002`. -/
inductive Route where
  | home
  | login
  | register
deriving DecidableEq

/-- In-memory provider state: the four `useState` hooks of `AuthProvider`,
the storage contents, and the route list passed to the most recent
`navigateReset` call (`[]` when no reset has been requested yet). -/
structure AuthState where
  user : Option User
  token : Option String
  loading : Bool
  error : Option String
  storage : StoredState
  nav : List Route
deriving DecidableEq

/-- `isAuthenticated: !!token` in the provider's context value. -/
def isAuthenticated (s : AuthState) : Bool :=
  s.token.isSome

/-- Provider state at mount: all hooks at their initial values
(`user = null`, `token = null`, `loading = true`, `error = null`),
over a given storage content; no navigation reset issued yet. -/
def initialAuthState (st : StoredState) : AuthState :=
  { user := none, token := none, loading := true, error := none,
    storage := st, nav := [] }

/-- Outcome of `await fetch(...)` followed by `await response.json()`:
either a response with its `ok` flag and parsed body, or a transport-level
failure (fetch rejected) carrying the error message. -/
inductive NetResult where
  | response (ok : Bool) (body : RawBody)
  | transportError (msg : String)
deriving DecidableEq

/-- A structurally valid login/register response
(`LoginResponse` / `RegisterResponse` in `src/unnamed/part_002`). -/
structure ParsedResponse where
  id : String
  name : String
  email : String
  token : String
deriving DecidableEq

/-- `handleLoginResponse` of `src/unnamed/part_002`: requires `id`, `name`,
`email`, `token` to all be strings, otherwise throws
`'Invalid login response format.'`. -/
def handleLoginResponse (data : RawBody) : Except String ParsedResponse :=
  match data.id, data.name, data.email, data.token with
  | some i, some n, some e, some t => .ok { id := i, name := n, email := e, token := t }
  | _, _, _, _ => .error "Invalid login response format."

/-- `handleRegisterResponse` of `src/unnamed/part_002`: same field checks,
throwing `'Invalid registration response format.'`. -/
def handleRegisterResponse (data : RawBody) : Except String ParsedResponse :=
  match data.id, data.name, data.email, data.token with
  | some i, some n, some e, some t => .ok { id := i, name := n, email := e, token := t }
  | _, _, _, _ => .error "Invalid registration response format."

/-- First atomic segment of `login` (before its `await fetch`):
`setLoading(true); setError(null)`. -/
def loginStart (s : AuthState) : AuthState :=
  { s with loading := true, error := none }

/-- First atomic segment of `register`: identical to `loginStart`. -/
def registerStart (s : AuthState) : AuthState :=
  { s with loading := true, error := none }

/-- Continuation of `login` once the network call resolves with `net`, applied
to the provider state current at that moment. `setTokenErr` / `setUserErr`
model the two `AsyncStorage.setItem` calls rejecting. Returns the new state
and the result propagated to `login`'s caller (the `catch` block re-throws:
`throw e`), with `finally { setLoading(false) }` applied on every path. -/
def loginFinish (net : NetResult) (setTokenErr setUserErr : Option String)
    (s : AuthState) : AuthState × Except String Unit :=
  match net with
  | .transportError m => ({ s with error := some m, loading := false }, .error m)
  | .response ok body =>
    if ok then
      match handleLoginResponse body with
      | .error m => ({ s with error := some m, loading := false }, .error m)
      | .ok data =>
        let u : User := { id := data.id, name := data.name, email := data.email }
        let s1 := { s with user := some u, token := some data.token }
        match setTokenErr with
        | some m => ({ s1 with error := some m, loading := false }, .error m)
        | none =>
          let s2 := { s1 with storage := ({ s1.storage with authToken := some data.token }) }
          match setUserErr with
          | some m => ({ s2 with error := some m, loading := false }, .error m)
          | none =>
            ({ s2 with
                storage := ({ s2.storage with authUser := some u }),
                nav := [Route.home], loading := false }, .ok ())
    else
      let m := body.message.getD "Login failed."
      ({ s with error := some m, loading := false }, .error m)

/-- Continuation of `register` once the network call resolves; mirrors
`loginFinish` with the register-specific messages. -/
def registerFinish (net : NetResult) (setTokenErr setUserErr : Option String)
    (s : AuthState) : AuthState × Except String Unit :=
  match net with
  | .transportError m => ({ s with error := some m, loading := false }, .error m)
  | .response ok body =>
    if ok then
      match handleRegisterResponse body with
      | .error m => ({ s with error := some m, loading := false }, .error m)
      | .ok data =>
        let u : User := { id := data.id, name := data.name, email := data.email }
        let s1 := { s with user := some u, token := some data.token }
        match setTokenErr with
        | some m => ({ s1 with error := some m, loading := false }, .error m)
        | none =>
          let s2 := { s1 with storage := ({ s1.storage with authToken := some data.token }) }
          match setUserErr with
          | some m => ({ s2 with error := some m, loading := false }, .error m)
          | none =>
            ({ s2 with
                storage := ({ s2.storage with authUser := some u }),
                nav := [Route.home], loading := false }, .ok ())
    else
      let m := body.message.getD "Registration failed."
      ({ s with error := some m, loading := false }, .error m)

/-- `logout` of `src/unnamed/part_002`, run to completion:
`setLoading(true); setError(null)`, then the two `AsyncStorage.removeItem`
calls; only if both succeed are `setUser(null)`, `setToken(null)` and the
navigation reset to `Login` executed. A rejection is caught
(`setError(e.message)`) and never re-thrown, and
`finally { setLoading(false) }` runs on every path. -/
def logout (removeTokenErr removeUserErr : Option String) (s : AuthState) : AuthState :=
  let s0 := { s with loading := true, error := none }
  match removeTokenErr with
  | some m => { s0 with error := some m, loading := false }
  | none =>
    let s1 := { s0 with storage := ({ s0.storage with authToken := none }) }
    match removeUserErr with
    | some m => { s1 with error := some m, loading := false }
    | none =>
      { s1 with
        storage := ({ s1.storage with authUser := none }),
        user := none, token := none, nav := [Route.login], loading := false }

/-- `loadStoredAuth` of `src/unnamed/part_002`, run to completion.
`readFails = true` models an `AsyncStorage.getItem` rejection, which is
caught and recorded via `setError`. On a successful read the pair is applied
only when both values are truthy (`if (storedToken && storedUser)`; a stored
empty-string token is falsy in JS). `finally { setLoading(false) }` runs on
every path. -/
def loadStoredAuth (readFails : Bool) (s : AuthState) : AuthState :=
  if readFails then
    { s with error := some "Failed to load stored authentication data.", loading := false }
  else
    match s.storage.authToken, s.storage.authUser with
    | some t, some u =>
      if t = "" then { s with loading := false }
      else { s with token := some t, user := some u, loading := false }
    | _, _ => { s with loading := false }

/-- Response payload attached to an axios error (`error.response.data` in
`src/unnamed/part_005`): an optional server-provided `message` string
(`none` when absent, not a string, or the payload is not an object). -/
structure RespData where
  message : Option String
deriving DecidableEq

/-- `error.response` of an axios error: HTTP status and parsed payload. -/
structure AxResponse where
  status : Nat
  data : RespData
deriving DecidableEq

/-- An axios-raised failure reaching the response interceptor of
`src/unnamed/part_005`: the raw error message plus, when the server answered
at all, the response. `response = none` is a transport-level failure
(timeout, DNS, connection refused). -/
structure AxiosError where
  message : String
  response : Option AxResponse
deriving DecidableEq

/-- The normalised `ApiError` built by the response interceptor of
`src/unnamed/part_005`: `new ApiError(message, error.response?.status,
error.response?.data)`. -/
structure ApiError where
  message : String
  status : Option Nat
  data : Option RespData
deriving DecidableEq

/-- The JS truthiness chain `respMsg || errMsg || 'An unexpected error
occurred'` used for the normalised message: an absent or empty string is
falsy and falls through to the next alternative. -/
def normalizedMessage (respMsg : Option String) (errMsg : String) : String :=
  match respMsg with
  | some m =>
    if m = "" then (if errMsg = "" then "An unexpected error occurred" else errMsg) else m
  | none => if errMsg = "" then "An unexpected error occurred" else errMsg

/-- Error branch of the response interceptor in `src/unnamed/part_005`
(and, with the same status/data copying, `handleErrorResponse` in
`src/unnamed/part_003`): total over every axios error; copies the status and
payload when a response exists and leaves them absent otherwise. -/
def handleAxiosError (e : AxiosError) : ApiError :=
  { message := normalizedMessage (e.response.bind (fun r => r.data.message)) e.message,
    status := e.response.map (fun r => r.status),
    data := e.response.map (fun r => r.data) }

/-- Modelled from the spec: the closed `ApiError` kind taxonomy of the
ErrorNormalizer (spec sections 4.4 and 7). The source `ApiError` carries no
kind field, so this taxonomy is not present in `src/`. -/
inductive ErrorKind where
  | network
  | unauthorized
  | invalidRequest
  | serverFault
  | unknown
deriving DecidableEq

/-- Modelled from the spec: the ordered classification rules of the
ErrorNormalizer (spec section 4.4), applied to the (possibly absent) status:
no status, then 401/403, then 400/422, then at least 500, then anything
else. The source normalizer preserves the status but implements no such
classifier. -/
def specErrorKind (status : Option Nat) : ErrorKind :=
  match status with
  | none => .network
  | some st =>
    if st = 401 ∨ st = 403 then .unauthorized
    else if st = 400 ∨ st = 422 then .invalidRequest
    else if 500 ≤ st then .serverFault
    else .unknown

/-- Association-list model of a JS headers object. Later entries override
earlier ones, exactly as a later key assignment in an object spread wins. -/
def jsLookup (hs : List (String × String)) (k : String) : Option String :=
  hs.foldl (fun acc p => if p.1 = k then some p.2 else acc) none

/-- Request interceptor of `src/unnamed/part_005`: reads the stored token;
when it is truthy (present and non-empty) spreads
`Authorization: Bearer <token>` into the headers, then always spreads
`X-Platform: Platform.OS` into them. -/
def requestInterceptor (storedToken : Option String) (platformOS : String)
    (headers : List (String × String)) : List (String × String) :=
  let h1 :=
    match storedToken with
    | some t => if t = "" then headers else headers ++ [("Authorization", "Bearer " ++ t)]
    | none => headers
  h1 ++ [("X-Platform", platformOS)]

/-- ECMAScript whitespace recognised by `String.prototype.trim`:
TAB, LF, VT, FF, CR, SP, NBSP, the Unicode space separators, the line and
paragraph separators, and ZWNBSP. -/
def isJsWhitespace (c : Char) : Bool :=
  c.toNat = 9 || c.toNat = 10 || c.toNat = 11 || c.toNat = 12 || c.toNat = 13 ||
  c.toNat = 32 || c.toNat = 160 || c.toNat = 5760 ||
  (8192 ≤ c.toNat && c.toNat ≤ 8202) ||
  c.toNat = 8232 || c.toNat = 8233 || c.toNat = 8239 || c.toNat = 8287 ||
  c.toNat = 12288 || c.toNat = 65279

/-- `String.prototype.trim`: drop leading and trailing whitespace. -/
def jsTrim (s : List Char) : List Char :=
  ((s.dropWhile isJsWhitespace).reverse.dropWhile isJsWhitespace).reverse

/-- Split a character list at every occurrence of `sep` (the separator is
dropped); always returns at least one (possibly empty) part. -/
def splitOnChar (sep : Char) : List Char → List (List Char)
  | [] => [[]]
  | c :: cs =>
    if c = sep then [] :: splitOnChar sep cs
    else
      match splitOnChar sep cs with
      | [] => [[c]]
      | h :: t => (c :: h) :: t

/-- Character class of the local part of the email regex in
`src/frontend/utils/validators.ts`: letters, digits, and the listed
punctuation (including space); code points 39, 96, 123, 124, 125 are the
apostrophe, the backquote, and the brace/bar characters of the class. -/
def isEmailLocalChar (c : Char) : Bool :=
  c.isAlpha || c.isDigit ||
  c = '.' || c = '!' || c = '#' || c = '$' || c = '%' || c = '&' ||
  c.toNat = 39 || c = '*' || c = '+' || c = '/' || c = '=' || c = '?' ||
  c = '^' || c = '_' || c.toNat = 96 || c.toNat = 123 || c.toNat = 124 ||
  c.toNat = 125 || c = ' ' || c = '-'

/-- Character class `[a-zA-Z0-9-]` of a domain label in the email regex. -/
def isLabelChar (c : Char) : Bool :=
  c.isAlpha || c.isDigit || c = '-'

/-- The domain side of the email regex: `([a-zA-Z0-9-]+\.)+[a-zA-Z]{2,}` —
one or more non-empty labels, each followed by a dot, ending in an
alphabetic top-level part of length at least two. -/
def emailDomainTest (r : List Char) : Bool :=
  match (splitOnChar '.' r).reverse with
  | [] => false
  | tld :: labels =>
    !labels.isEmpty && decide (2 ≤ tld.length) && tld.all Char.isAlpha &&
    labels.all (fun l => !l.isEmpty && l.all isLabelChar)

/-- The anchored email regex shared by both `isEmailValid` variants in
`src/frontend/utils/validators.ts`: a non-empty local part over
`isEmailLocalChar`, a single `@`, and a matching domain. Neither character
class contains `@`, so the string must contain exactly one `@`. -/
def emailRegexTest (s : List Char) : Bool :=
  match splitOnChar '@' s with
  | [l, r] => !l.isEmpty && l.all isEmailLocalChar && emailDomainTest r
  | _ => false

/-- The string case of `isRequired` in `src/frontend/utils/validators.ts`:
`value.trim().length > 0`. -/
def isRequiredString (s : String) : Bool :=
  !(jsTrim s.toList).isEmpty

/-- First `isEmailValid` variant (`src/frontend/utils/validators.ts`
lines 17–21): guard by `isRequired`, then test the trimmed input against the
email regex. -/
def isEmailValidV1 (email : String) : Bool :=
  if isRequiredString email then emailRegexTest (jsTrim email.toList) else false

/-- Second `isEmailValid` variant (`src/frontend/utils/validators.ts`
lines 150–156): guard by JS falsiness (`!email`, i.e. the empty string for a
string input), trim, then test against the same regex. -/
def isEmailValidV2 (email : String) : Bool :=
  if email.toList.isEmpty then false else emailRegexTest (jsTrim email.toList)

/-! ### Concrete states and inputs used by witnesses and counterexamples -/

/-- A settled unauthenticated provider state (after a restore that found
nothing stored). -/
def sUnauth : AuthState :=
  { user := none, token := none, loading := false, error := none,
    storage := { authToken := none, authUser := none }, nav := [Route.login] }

/-- A concrete user profile. -/
def uA : User :=
  { id := "1", name := "A", email := "a@b.com" }

/-- An authenticated provider state with a mutating operation in flight
(`loading = true`). -/
def sAuthBusy : AuthState :=
  { user := some uA, token := some "t", loading := true, error := none,
    storage := { authToken := some "t", authUser := some uA }, nav := [Route.home] }

/-- A well-formed successful login response body. -/
def okBody : RawBody :=
  { id := some "1", name := some "A", email := some "a@b.com",
    token := some "tkn", message := none }

/-- A failure response body carrying a server message. -/
def failBody : RawBody :=
  { id := none, name := none, email := none, token := none, message := some "bad creds" }

/-- A success-status response body missing the required `token` field. -/
def noTokenBody : RawBody :=
  { id := some "1", name := some "A", email := some "a@b.com",
    token := none, message := none }

/-- A failure response body with no server message at all. -/
def noMsgBody : RawBody :=
  { id := none, name := none, email := none, token := none, message := none }

/-! ### Claims -/

/-- C1 counterexample: `login` is issued from a settled unauthenticated
state, `logout` runs to completion while the login's network call is still
pending, and then the delayed successful login response arrives. The claim
says the final state is Unauthenticated and the stale result is discarded;
in the code there is no generation check, so the delayed continuation
re-applies the Authenticated state: the final state holds the response's
token and user and the navigation was reset to Home. -/
theorem claim_C1_counterexample :
    isAuthenticated (loginFinish (.response true okBody) none none
      (logout none none (loginStart sUnauth))).1 = true ∧
    (loginFinish (.response true okBody) none none
      (logout none none (loginStart sUnauth))).1.token = some "tkn" ∧
    (loginFinish (.response true okBody) none none
      (logout none none (loginStart sUnauth))).1.nav = [Route.home] :=
  ⟨rfl, rfl, rfl⟩

/-- C1 (amended): for every execution in which `logout()` completes while an
earlier `login()`'s network call is still pending, the delayed successful
login result is applied when it arrives — there is no generation check, so
the stale response re-installs the Authenticated state: the final state
carries the response's token and user, navigation is reset to Home, and the
login call resolves successfully. -/
theorem claim_C1 (s : AuthState) (i n em tok : String) :
    (loginFinish (.response true ⟨some i, some n, some em, some tok, none⟩) none none
      (logout none none (loginStart s))).1.token = some tok ∧
    (loginFinish (.response true ⟨some i, some n, some em, some tok, none⟩) none none
      (logout none none (loginStart s))).1.user = some ⟨i, n, em⟩ ∧
    (loginFinish (.response true ⟨some i, some n, some em, some tok, none⟩) none none
      (logout none none (loginStart s))).1.nav = [Route.home] ∧
    (loginFinish (.response true ⟨some i, some n, some em, some tok, none⟩) none none
      (logout none none (loginStart s))).2 = .ok () :=
  ⟨rfl, rfl, rfl, rfl⟩

/-- C2 counterexample: from an authenticated state with a login already in
flight (`loading = true`), invoking `logout` is not a rejected no-op — the
code has no in-flight guard, so it runs and changes the state (the token is
cleared). -/
theorem claim_C2_counterexample :
    sAuthBusy.loading = true ∧ logout none none sAuthBusy ≠ sAuthBusy ∧
    (logout none none sAuthBusy).token = none := by
  decide

/-- C2 (amended): the code has no in-flight guard: a mutating operation
invoked while another is in flight (`loading = true`) executes
unconditionally and mutates the session state — in particular a `logout`
issued during a pending `login` clears the token, so the second operation
is not a rejected no-op and two operations can be in flight at once. -/
theorem claim_C2 (s : AuthState) (t : String) (_hflight : s.loading = true)
    (htok : s.token = some t) :
    (logout none none s).token = none ∧ logout none none s ≠ s := by
  refine ⟨rfl, fun h => ?_⟩
  have htok' : (logout none none s).token = s.token := congrArg AuthState.token h
  rw [htok] at htok'
  exact Option.noConfusion htok'

/-- C2 witness: the amended theorem applied to the concrete in-flight
authenticated state. -/
theorem claim_C2_witness :
    (logout none none sAuthBusy).token = none ∧ logout none none sAuthBusy ≠ sAuthBusy :=
  claim_C2 sAuthBusy "t" rfl rfl

/-- C3 counterexample: when the first `AsyncStorage.removeItem` rejects,
`logout` catches the failure and returns without clearing the in-memory
user and token, so the caller-visible state is still authenticated — the
claim that a store-clear failure never leaves the user authenticated is
false. -/
theorem claim_C3_counterexample :
    isAuthenticated (logout (some "Storage remove failed.") none sAuthBusy) = true ∧
    (logout (some "Storage remove failed.") none sAuthBusy).user = some uA ∧
    (logout (some "Storage remove failed.") none sAuthBusy).error
      = some "Storage remove failed." := by
  decide

/-- C3 (amended): `logout` never throws to its caller. When both store
removes succeed it transitions the session to Unauthenticated (user, token
and error cleared, storage emptied, navigation reset to Login). When a
store remove rejects, however, the failure message is recorded in the error
field and the user and token keep their previous values — a local
store-clear failure leaves the user authenticated in the UI. -/
theorem claim_C3 (s : AuthState) (m : String) (userErr : Option String) :
    ((logout none none s).token = none ∧ (logout none none s).user = none ∧
     (logout none none s).error = none ∧ (logout none none s).nav = [Route.login] ∧
     (logout none none s).storage = { authToken := none, authUser := none }) ∧
    ((logout (some m) userErr s).token = s.token ∧
     (logout (some m) userErr s).user = s.user ∧
     (logout (some m) userErr s).error = some m ∧
     (logout (some m) userErr s).storage = s.storage) ∧
    ((logout none (some m) s).token = s.token ∧
     (logout none (some m) s).user = s.user ∧
     (logout none (some m) s).error = some m) :=
  ⟨⟨rfl, rfl, rfl, rfl, rfl⟩, ⟨rfl, rfl, rfl, rfl⟩, ⟨rfl, rfl, rfl⟩⟩

/-- C4 counterexample: a failing store read during restore does not behave
identically to "nothing stored": it populates the error field with the
storage-failure message, while the nothing-stored restore leaves the error
field empty. -/
theorem claim_C4_counterexample :
    (loadStoredAuth true (initialAuthState { authToken := none, authUser := none })).error
      = some "Failed to load stored authentication data." ∧
    (loadStoredAuth false (initialAuthState { authToken := none, authUser := none })).error
      = none := by
  decide

/-- C4 (amended): when the store read fails during restore, the session
still ends unauthenticated exactly as in the nothing-stored case (user and
token stay absent, loading cleared) — but, unlike the nothing-stored case,
the storage failure is recorded in the session state's error field. -/
theorem claim_C4 (st : StoredState) :
    (loadStoredAuth true (initialAuthState st)).token = none ∧
    (loadStoredAuth true (initialAuthState st)).user = none ∧
    (loadStoredAuth true (initialAuthState st)).loading = false ∧
    isAuthenticated (loadStoredAuth true (initialAuthState st)) = false ∧
    (loadStoredAuth true (initialAuthState st)).error
      = some "Failed to load stored authentication data." :=
  ⟨rfl, rfl, rfl, rfl, rfl⟩

/-- C5: the error normalisation of the response interceptor is total — every
axios failure yields an `ApiError` — and it preserves the status (absent
exactly for transport failures). Classifying that preserved status by the
spec's ordered rules therefore satisfies them exactly: Network iff no
response was received, Unauthorized iff 401/403, InvalidRequest iff
400/422, ServerFault iff the status is at least 500, and Unknown for
precisely the remaining statuses. -/
theorem claim_C5 (e : AxiosError) :
    (handleAxiosError e).status = e.response.map (fun r => r.status) ∧
    (specErrorKind (handleAxiosError e).status = .network ↔ e.response = none) ∧
    (specErrorKind (handleAxiosError e).status = .unauthorized ↔
      (handleAxiosError e).status = some 401 ∨ (handleAxiosError e).status = some 403) ∧
    (specErrorKind (handleAxiosError e).status = .invalidRequest ↔
      (handleAxiosError e).status = some 400 ∨ (handleAxiosError e).status = some 422) ∧
    (specErrorKind (handleAxiosError e).status = .serverFault ↔
      ∃ st, (handleAxiosError e).status = some st ∧ 500 ≤ st) ∧
    (specErrorKind (handleAxiosError e).status = .unknown ↔
      ∃ st, (handleAxiosError e).status = some st ∧ st ≠ 401 ∧ st ≠ 403 ∧
        st ≠ 400 ∧ st ≠ 422 ∧ st < 500) := by
  obtain ⟨msg, resp⟩ := e
  cases resp with
  | none => simp [handleAxiosError, specErrorKind]
  | some r =>
    obtain ⟨st, d⟩ := r
    refine ⟨rfl, ?_, ?_, ?_, ?_, ?_⟩ <;>
      simp only [handleAxiosError, Option.map, specErrorKind] <;>
      split_ifs with h1 h2 h3 <;> simp_all <;> omega

/-- C6: when the backend answers a login or register with a success status
but the body lacks any of the required string fields (in particular
`token`), the operation fails with the malformed-response error, no
credential-store write occurs, and the stored credential, in-memory
user/token and authentication phase all remain what they were before the
call. -/
theorem claim_C6 (s : AuthState) (body : RawBody)
    (hmiss : body.id = none ∨ body.name = none ∨ body.email = none ∨ body.token = none) :
    ((loginFinish (.response true body) none none (loginStart s)).2
       = .error "Invalid login response format." ∧
     (loginFinish (.response true body) none none (loginStart s)).1.storage = s.storage ∧
     (loginFinish (.response true body) none none (loginStart s)).1.token = s.token ∧
     (loginFinish (.response true body) none none (loginStart s)).1.user = s.user ∧
     isAuthenticated (loginFinish (.response true body) none none (loginStart s)).1
       = isAuthenticated s) ∧
    ((registerFinish (.response true body) none none (registerStart s)).2
       = .error "Invalid registration response format." ∧
     (registerFinish (.response true body) none none (registerStart s)).1.storage = s.storage ∧
     (registerFinish (.response true body) none none (registerStart s)).1.token = s.token ∧
     (registerFinish (.response true body) none none (registerStart s)).1.user = s.user ∧
     isAuthenticated (registerFinish (.response true body) none none (registerStart s)).1
       = isAuthenticated s) := by
  obtain ⟨bid, bname, bemail, btok, bmsg⟩ := body
  cases bid <;> cases bname <;> cases bemail <;> cases btok <;>
    simp_all [loginFinish, registerFinish, handleLoginResponse, handleRegisterResponse,
      loginStart, registerStart, isAuthenticated]

/-- C6 witness: the theorem applied at an authenticated state and a success
body missing only `token`. -/
theorem claim_C6_witness :
    (loginFinish (.response true noTokenBody) none none (loginStart sAuthBusy)).2
      = .error "Invalid login response format." ∧
    (loginFinish (.response true noTokenBody) none none (loginStart sAuthBusy)).1.storage
      = sAuthBusy.storage :=
  ⟨(claim_C6 sAuthBusy noTokenBody (Or.inr (Or.inr (Or.inr rfl)))).1.1,
   (claim_C6 sAuthBusy noTokenBody (Or.inr (Or.inr (Or.inr rfl)))).1.2.1⟩

/-- Every path of `loginFinish` that throws also records the thrown message
in the error field of the resulting state. -/
theorem loginFinish_error_recorded (net : NetResult) (te ue : Option String)
    (s : AuthState) (m : String)
    (h : (loginFinish net te ue s).2 = .error m) :
    (loginFinish net te ue s).1.error = some m := by
  cases net with
  | transportError msg => simp_all [loginFinish]
  | response ok body =>
    cases ok with
    | false => simp_all [loginFinish]
    | true =>
      cases hh : handleLoginResponse body with
      | error m2 => simp_all [loginFinish]
      | ok data =>
        cases te with
        | some m2 => simp_all [loginFinish]
        | none =>
          cases ue with
          | some m2 => simp_all [loginFinish]
          | none => simp_all [loginFinish]

/-- Every path of `registerFinish` that throws also records the thrown
message in the error field of the resulting state. -/
theorem registerFinish_error_recorded (net : NetResult) (te ue : Option String)
    (s : AuthState) (m : String)
    (h : (registerFinish net te ue s).2 = .error m) :
    (registerFinish net te ue s).1.error = some m := by
  cases net with
  | transportError msg => simp_all [registerFinish]
  | response ok body =>
    cases ok with
    | false => simp_all [registerFinish]
    | true =>
      cases hh : handleRegisterResponse body with
      | error m2 => simp_all [registerFinish]
      | ok data =>
        cases te with
        | some m2 => simp_all [registerFinish]
        | none =>
          cases ue with
          | some m2 => simp_all [registerFinish]
          | none => simp_all [registerFinish]

/-- C7 counterexample: a failing login records the normalized message in
the error field, but it also re-throws — the failure crosses the
session-manager boundary to the caller as an exception (the `Except` result
component), contradicting the claim that it is surfaced through the error
field only and does not propagate. -/
theorem claim_C7_counterexample :
    (loginFinish (.response false failBody) none none (loginStart sUnauth)).2
      = .error "bad creds" ∧
    (loginFinish (.response false failBody) none none (loginStart sUnauth)).1.error
      = some "bad creds" :=
  ⟨rfl, rfl⟩

/-- C7 (amended): for every failing login or register operation, the
normalized error message is recorded in the session state's error field —
but the failure is additionally re-thrown across the session-manager
boundary (`throw e` in the catch block); the in-repo callers catch and
discard that exception, observing the failure only through the error
field. -/
theorem claim_C7 (s : AuthState) (net : NetResult) (te ue : Option String) (m : String) :
    ((loginFinish net te ue (loginStart s)).2 = .error m →
      (loginFinish net te ue (loginStart s)).1.error = some m) ∧
    ((registerFinish net te ue (registerStart s)).2 = .error m →
      (registerFinish net te ue (registerStart s)).1.error = some m) :=
  ⟨loginFinish_error_recorded net te ue (loginStart s) m,
   registerFinish_error_recorded net te ue (registerStart s) m⟩

/-- C7 witness: the amended theorem at a register failure with no server
message, which throws and records the default registration message. -/
theorem claim_C7_witness :
    (registerFinish (.response false noMsgBody) none none (registerStart sUnauth)).1.error
      = some "Registration failed." :=
  (claim_C7 sUnauth (.response false noMsgBody) none none "Registration failed.").2 rfl

/-- Looking a key up after appending one header entry: the appended entry
wins when its key matches, otherwise the lookup falls through. -/
theorem jsLookup_append_single (hs : List (String × String)) (a b k : String) :
    jsLookup (hs ++ [(a, b)]) k = if a = k then some b else jsLookup hs k := by
  simp [jsLookup, List.foldl_append]

/-- Looking a key up after appending two header entries. -/
theorem jsLookup_append_pair (hs : List (String × String)) (a b c d k : String) :
    jsLookup (hs ++ [(a, b), (c, d)]) k =
      if c = k then some d else if a = k then some b else jsLookup hs k := by
  simp [jsLookup, List.foldl_append]

/-- Shape of the interceptor output when no token is stored. -/
theorem requestInterceptor_none (pf : String) (hs : List (String × String)) :
    requestInterceptor none pf hs = hs ++ [("X-Platform", pf)] := rfl

/-- Shape of the interceptor output when the stored token is the (falsy)
empty string. -/
theorem requestInterceptor_some_empty (pf : String) (hs : List (String × String)) :
    requestInterceptor (some "") pf hs = hs ++ [("X-Platform", pf)] := rfl

/-- Shape of the interceptor output when the stored token is truthy. -/
theorem requestInterceptor_some_truthy (t pf : String) (hs : List (String × String))
    (ht : t ≠ "") :
    requestInterceptor (some t) pf hs
      = hs ++ [("Authorization", "Bearer " ++ t), ("X-Platform", pf)] := by
  simp [requestInterceptor, ht]

/-- C8: on every request built by the interceptor the platform header is
present (regardless of authentication state), and — provided the caller did
not pass an authorization header of its own — the `Authorization: Bearer
<token>` header is present exactly when a truthy (non-empty) token is in
the store. -/
theorem claim_C8 (tok : Option String) (pf : String) (hs : List (String × String))
    (hnoauth : jsLookup hs "Authorization" = none) :
    jsLookup (requestInterceptor tok pf hs) "X-Platform" = some pf ∧
    (∀ t, tok = some t → t ≠ "" →
      jsLookup (requestInterceptor tok pf hs) "Authorization" = some ("Bearer " ++ t)) ∧
    (tok = none ∨ tok = some "" →
      jsLookup (requestInterceptor tok pf hs) "Authorization" = none) := by
  have hxa : ¬ (("X-Platform" : String) = "Authorization") := by decide
  refine ⟨?_, ?_, ?_⟩
  · cases tok with
    | none => rw [requestInterceptor_none, jsLookup_append_single, if_pos rfl]
    | some t =>
      by_cases ht : t = ""
      · subst ht
        rw [requestInterceptor_some_empty, jsLookup_append_single, if_pos rfl]
      · rw [requestInterceptor_some_truthy t pf hs ht, jsLookup_append_pair, if_pos rfl]
  · intro t htok ht
    subst htok
    rw [requestInterceptor_some_truthy t pf hs ht, jsLookup_append_pair,
      if_neg hxa, if_pos rfl]
  · intro htok
    rcases htok with h | h <;> subst h
    · rw [requestInterceptor_none, jsLookup_append_single, if_neg hxa, hnoauth]
    · rw [requestInterceptor_some_empty, jsLookup_append_single, if_neg hxa, hnoauth]

/-- C8 witness: the theorem at a stored token `tkn`, platform `ios`, and the
default content-type header. -/
theorem claim_C8_witness :
    jsLookup (requestInterceptor (some "tkn") "ios"
      [("Content-Type", "application/json")]) "X-Platform" = some "ios" ∧
    jsLookup (requestInterceptor (some "tkn") "ios"
      [("Content-Type", "application/json")]) "Authorization" = some ("Bearer " ++ "tkn") := by
  have h := claim_C8 (some "tkn") "ios" [("Content-Type", "application/json")] (by decide)
  exact ⟨h.1, h.2.1 "tkn" rfl (by decide)⟩

/-- C9: if exactly one of the two persisted keys is present (a token without
a cached user, or a cached user without a token), restoring applies
neither value — the loaded session stays absent overall — and in general
the restore never sets exactly one of the in-memory token and user. -/
theorem claim_C9 (st : StoredState) :
    ((st.authToken = none ∧ st.authUser ≠ none) ∨
     (st.authToken ≠ none ∧ st.authUser = none) →
      (loadStoredAuth false (initialAuthState st)).token = none ∧
      (loadStoredAuth false (initialAuthState st)).user = none) ∧
    ((loadStoredAuth false (initialAuthState st)).token.isSome
      = (loadStoredAuth false (initialAuthState st)).user.isSome) := by
  obtain ⟨tk, us⟩ := st
  cases tk with
  | none => cases us <;> simp [loadStoredAuth, initialAuthState]
  | some t =>
    cases us with
    | none => simp [loadStoredAuth, initialAuthState]
    | some u =>
      by_cases ht : t = "" <;> simp [loadStoredAuth, initialAuthState, ht]

/-- C9 witness: the theorem at a store holding only the token key. -/
theorem claim_C9_witness :
    (loadStoredAuth false (initialAuthState { authToken := some "tkn", authUser := none })).token
      = none ∧
    (loadStoredAuth false (initialAuthState { authToken := some "tkn", authUser := none })).user
      = none :=
  (claim_C9 { authToken := some "tkn", authUser := none }).1 (Or.inr (by decide))

/-- C10: the two `isEmailValid` variants concatenated in the validators
module agree on every string input: the `isRequired` guard of the first
variant and the falsiness guard of the second differ only on
whitespace-only strings, where the shared regex rejects the trimmed empty
string anyway. -/
theorem claim_C10 (s : String) : isEmailValidV1 s = isEmailValidV2 s := by
  have hreg : emailRegexTest [] = false := rfl
  have htn : jsTrim ([] : List Char) = [] := rfl
  by_cases h : jsTrim s.data = []
  · by_cases hs : s.data = [] <;>
      simp [isEmailValidV1, isEmailValidV2, isRequiredString, h, hs, hreg, htn]
  · have hs : ¬ s.data = [] := by
      intro hc
      rw [hc] at h
      exact h rfl
    simp [isEmailValidV1, isEmailValidV2, isRequiredString, h, hs]

end RNApp
